import Mathlib

/-!
Shallow embedding of the product-edit session component
(src/components/admin/edit-product.tsx).

The component holds React state cells (success message, field errors, top
level error, two toast-open flags, displayable image, editable draft) and
two asynchronous handlers: an image upload and a PATCH submit.  Each
handler is embedded as a pure function from the old session state (and the
network outcome) to the new session state; a handler that performs an
unguarded JavaScript field access on an undefined value is modelled as
returning an error of type Except Unit, since such an access throws and
no state update happens afterwards.
-/

namespace EditProduct

/-- Dynamic JSON-like value as the component receives it from the network.
JavaScript field access on such a value either yields a value (a missing
field of an object reads as the undefined value) or throws when the
receiver is itself undefined. -/
inductive JSValue where
  | undefined : JSValue
  | str : String → JSValue
  | num : Int → JSValue
  | list : List JSValue → JSValue
  | obj : List (String × JSValue) → JSValue

/-- First-match lookup in an object's field list; a missing field reads as
the undefined value, as in JavaScript. -/
def lookupField : List (String × JSValue) → String → JSValue
  | [], _ => .undefined
  | (k, v) :: rest, key => if k = key then v else lookupField rest key

/-- JavaScript field access: throws (none) when the receiver is undefined,
otherwise yields the field's value, with absent fields reading as undefined. -/
def getField : JSValue → String → Option JSValue
  | .undefined, _ => none
  | .obj fs, key => some (lookupField fs key)
  | _, _ => some .undefined

/-- Replace a field in an object's field list in place, appending when the
key is absent; mirrors the object spread followed by the field override. -/
def setFieldList : List (String × JSValue) → String → JSValue → List (String × JSValue)
  | [], key, v => [(key, v)]
  | (k, w) :: rest, key, v =>
    if k = key then (k, v) :: rest else (k, w) :: setFieldList rest key v

/-- The object spread followed by one overriding field, as in the
functional state updates of the component; spreading a non-object yields
an object holding only the new field. -/
def setField : JSValue → String → JSValue → JSValue
  | .obj fs, key, v => .obj (setFieldList fs key v)
  | _, key, v => .obj [(key, v)]

/-- The externally supplied category prop. -/
structure Category where
  id : String

/-- A product record as the component receives it via the product prop and
keeps it in the editable draft. -/
structure Product where
  id : String
  image : String
  name : String
  price : Int
  stock : Int
  categoryId : String
  variants : JSValue

/-- The cleared error state: every field of the form maps to the one
element list holding the empty string. -/
def defaultErrors : JSValue :=
  .obj [("id", .list [.str ""]), ("image", .list [.str ""]), ("name", .list [.str ""]),
        ("price", .list [.str ""]), ("stock", .list [.str ""]),
        ("categoryId", .list [.str ""]), ("variants", .list [.str ""])]

/-- The component's React state cells, gathered into one record.  The
field-error cell is a dynamic value, since the 400 handler stores whatever
the response body's error field holds without validation. -/
structure SessionState where
  success : String
  formErrors : JSValue
  error : String
  open_ : Bool
  openErr : Bool
  image : String
  currentProduct : Product

/-- The initial state of an edit session for a given product prop. -/
def initialState (product : Product) : SessionState :=
  { success := "", formErrors := defaultErrors, error := "", open_ := false,
    openErr := false, image := product.image, currentProduct := product }

/-- Clearing of the image error performed by uploadImage before the upload
request is sent. -/
def uploadImagePre (s : SessionState) : SessionState :=
  { s with formErrors := setField s.formErrors "image" (.list []) }

/-- The zod safeParse of an object schema with a single string field named
image: succeeds exactly when the value is an object whose image field is a
string, in which case that string is extracted. -/
def parseImageBody : JSValue → Option String
  | .obj fs =>
    match lookupField fs "image" with
    | .str s => some s
    | _ => none
  | _ => none

/-- Success continuation of uploadImage: on an expected-shaped body the
draft's image field and the displayable image reference both become the
configured host followed by the uploads path and the returned name;
otherwise the state is left untouched. -/
def uploadImageOnSuccess (host : String) (resData : JSValue) (s : SessionState) : SessionState :=
  match parseImageBody resData with
  | some img =>
    let url := host ++ "/uploads/" ++ img
    { s with currentProduct := { s.currentProduct with image := url }, image := url }
  | none => s

/-- Failure continuation of uploadImage: reads the error field of the
response data with unguarded accesses and stores it as the sole image
error; an access on an undefined receiver throws. -/
def uploadImageOnError (errResponse : JSValue) (s : SessionState) : Except Unit SessionState :=
  match getField errResponse "data" with
  | none => .error ()
  | some d =>
    match getField d "error" with
    | none => .error ()
    | some v => .ok { s with formErrors := setField s.formErrors "image" (.list [v]) }

/-- The PATCH request handleSubmit builds when the local precondition
passes. -/
structure PatchRequest where
  method : String
  url : String
  id : String
  image : String
  name : String
  price : Int
  stock : Int
  categoryId : Option String
  variants : JSValue

/-- The synchronous part of handleSubmit: clears the top level error and
the field errors, then either aborts with the empty-image field error and
no request, or builds the PATCH request from the product prop, the draft
and the category prop. -/
def handleSubmitPre (product : Product) (category : Option Category) (s : SessionState) :
    SessionState × Option PatchRequest :=
  let s1 : SessionState := { s with error := "", formErrors := defaultErrors }
  if s1.currentProduct.image = "" then
    ({ s1 with
        formErrors := setField s1.formErrors "image" (.list [.str "Image can not be empty"]) },
      none)
  else
    (s1, some {
      method := "PATCH",
      url := "/api/products/" ++ product.id,
      id := product.id,
      image := s1.currentProduct.image,
      name := s1.currentProduct.name,
      price := s1.currentProduct.price,
      stock := s1.currentProduct.stock,
      categoryId := Option.map Category.id category,
      variants := product.variants })

/-- Success continuation of handleSubmit on a 2xx response: sets the
success message, opens the success toast, and calls the onUpdate callback;
the natural number counts the onUpdate invocations. -/
def handleSubmitOnSuccess (s : SessionState) : SessionState × Nat :=
  ({ s with success := "Product updated successfully", open_ := true }, 1)

/-- The strict equality test of a dynamic value against a numeric status
literal. -/
def statusEq : JSValue → Int → Bool
  | .num m, n => m = n
  | _, _ => false

/-- Failure continuation of handleSubmit, dispatching on the response
status: 400 stores the body's error field as the whole field-error state;
403 stores the body's error field as the top level error and opens the
error toast when it parses as a string, and is silently dropped otherwise;
every other status changes nothing.  The status and data reads are
unguarded, so a missing response throws. -/
def handleSubmitOnError (errResponse : JSValue) (s : SessionState) : Except Unit SessionState :=
  match getField errResponse "status" with
  | none => .error ()
  | some st =>
    if statusEq st 400 then
      match getField errResponse "data" with
      | none => .error ()
      | some d =>
        match getField d "error" with
        | none => .error ()
        | some v => .ok { s with formErrors := v }
    else if statusEq st 403 then
      match getField errResponse "data" with
      | none => .error ()
      | some d =>
        match getField d "error" with
        | none => .error ()
        | some v =>
          match v with
          | .str msg => .ok { s with error := msg, openErr := true }
          | _ => .ok s
    else
      .ok s

/-- The network outcome of a submitted PATCH request: either a 2xx
response, or a failure carrying the response value of the thrown error
(the undefined value for a network-level failure with no response). -/
inductive UpdateOutcome where
  | ok2xx : UpdateOutcome
  | failed : JSValue → UpdateOutcome

/-- A whole handleSubmit run: the synchronous precondition part followed,
when a request was issued, by the continuation selected by the network
outcome.  The result carries the final state, the request issued (none
when the precondition aborted) and the number of onUpdate invocations. -/
def submit (product : Product) (category : Option Category) (outcome : UpdateOutcome)
    (s : SessionState) : Except Unit (SessionState × Option PatchRequest × Nat) :=
  match handleSubmitPre product category s with
  | (s1, none) => .ok (s1, none, 0)
  | (s1, some req) =>
    match outcome with
    | .ok2xx =>
      let r := handleSubmitOnSuccess s1
      .ok (r.1, some req, r.2)
    | .failed errResponse =>
      match handleSubmitOnError errResponse s1 with
      | .ok s2 => .ok (s2, some req, 0)
      | .error e => .error e

/-- A concrete product used by witnesses and counterexamples. -/
def p0 : Product :=
  { id := "p1", image := "img.png", name := "Widget", price := 10, stock := 5,
    categoryId := "c1", variants := .list [] }

/-- A concrete session state used by witnesses and counterexamples. -/
def s0 : SessionState := initialState p0

end EditProduct

namespace EditProduct

/-- Claim C1: for every draft whose image field is empty, submit issues no
network request and never calls onUpdate, sets the image field's error
list to exactly the one element list holding "Image can not be empty", and
aborts before the PATCH request is built. -/
theorem submit_empty_image_aborts (product : Product) (category : Option Category)
    (outcome : UpdateOutcome) (s : SessionState) (h : s.currentProduct.image = "") :
    submit product category outcome s =
      .ok ({ s with
               error := "",
               formErrors := setField defaultErrors "image"
                 (.list [.str "Image can not be empty"]) },
            none, 0) ∧
    getField (setField defaultErrors "image" (.list [.str "Image can not be empty"])) "image" =
      some (.list [.str "Image can not be empty"]) := by
  refine ⟨?_, rfl⟩
  unfold submit handleSubmitPre
  simp [h]

/-- Claim C1 witness: a concrete session whose draft image is empty. -/
theorem submit_empty_image_aborts_witness :
    submit p0 none .ok2xx { s0 with currentProduct := { p0 with image := "" } } =
      .ok ({ { s0 with currentProduct := { p0 with image := "" } } with
               error := "",
               formErrors := setField defaultErrors "image"
                 (.list [.str "Image can not be empty"]) },
            none, 0) :=
  (submit_empty_image_aborts p0 none .ok2xx
    { s0 with currentProduct := { p0 with image := "" } } rfl).1

/-- The 400 response body of the counterexample: a bare field-to-errors
map with no error wrapper. -/
def body400 : JSValue := .obj [("name", .list [.str "too short"])]

/-- Claim C2 counterexample: on a 400 response whose body is the bare map
from name to a one element error list, the stored field-error state is the
undefined value read from the body's absent error field, not the body
object itself. -/
theorem submit400_bare_body_not_stored :
    handleSubmitOnError (.obj [("status", .num 400), ("data", body400)]) s0 =
      .ok { s0 with formErrors := .undefined } ∧
    JSValue.undefined ≠ body400 :=
  ⟨rfl, fun h => nomatch h⟩

/-- Claim C2 amended: every 400 response replaces the whole field-error
state with the response body's error field, so no other field retains a
prior error value; a body wrapping the map as its error field is stored
verbatim. -/
theorem submit400_replaces_with_error_field (d v : JSValue) (s : SessionState)
    (h : getField d "error" = some v) :
    handleSubmitOnError (.obj [("status", .num 400), ("data", d)]) s =
      .ok { s with formErrors := v } := by
  have hs : handleSubmitOnError (.obj [("status", .num 400), ("data", d)]) s =
      match getField d "error" with
      | none => .error ()
      | some w => .ok { s with formErrors := w } := rfl
  rw [hs, h]

/-- Claim C2 witness: the wrapped body is stored verbatim at a concrete
input, replacing the prior errors. -/
theorem submit400_replaces_with_error_field_witness :
    handleSubmitOnError (.obj [("status", .num 400), ("data", .obj [("error", body400)])]) s0 =
      .ok { s0 with formErrors := body400 } :=
  submit400_replaces_with_error_field (.obj [("error", body400)]) body400 s0 rfl

/-- Claim C3: a successful upload whose body is an object with a string
image field sets both the draft's image field and the displayable image
reference to exactly host ++ "/uploads/" ++ name, and a body that fails
the shape check leaves the state untouched with no error surfaced. -/
theorem uploadSuccess_sets_url (host img : String) (d : JSValue) (s : SessionState) :
    (uploadImageOnSuccess host (.obj [("image", .str img)]) s).currentProduct.image =
        host ++ "/uploads/" ++ img ∧
    (uploadImageOnSuccess host (.obj [("image", .str img)]) s).image =
        host ++ "/uploads/" ++ img ∧
    (parseImageBody d = none → uploadImageOnSuccess host d s = s) := by
  refine ⟨rfl, rfl, fun h => ?_⟩
  unfold uploadImageOnSuccess
  rw [h]

/-- Claim C3 witness: concrete host and upload bodies, one of the expected
shape and one not. -/
theorem uploadSuccess_sets_url_witness :
    (uploadImageOnSuccess "http://h" (.obj [("image", .str "x.png")]) s0).image =
      "http://h/uploads/x.png" ∧
    uploadImageOnSuccess "http://h" (.str "oops") s0 = s0 :=
  ⟨(uploadSuccess_sets_url "http://h" "x.png" (.str "oops") s0).2.1,
   (uploadSuccess_sets_url "http://h" "x.png" (.str "oops") s0).2.2 rfl⟩

/-- Claim C4: on a 2xx response, submit sets the success message, opens
the success toast, and invokes the onUpdate callback exactly once. -/
theorem submit2xx_success_feedback (product : Product) (category : Option Category)
    (s : SessionState) (h : s.currentProduct.image ≠ "") :
    ∃ req, submit product category .ok2xx s =
      .ok ({ s with
               error := "", formErrors := defaultErrors,
               success := "Product updated successfully", open_ := true },
            some req, 1) := by
  refine ⟨{ method := "PATCH", url := "/api/products/" ++ product.id, id := product.id,
            image := s.currentProduct.image, name := s.currentProduct.name,
            price := s.currentProduct.price, stock := s.currentProduct.stock,
            categoryId := Option.map Category.id category, variants := product.variants }, ?_⟩
  unfold submit handleSubmitPre handleSubmitOnSuccess
  simp [h]

/-- Claim C4 witness: the concrete session submits successfully. -/
theorem submit2xx_success_feedback_witness :
    ∃ req, submit p0 none .ok2xx s0 =
      .ok ({ s0 with
               error := "", formErrors := defaultErrors,
               success := "Product updated successfully", open_ := true },
            some req, 1) :=
  submit2xx_success_feedback p0 none s0 (by decide)

end EditProduct

namespace EditProduct

/-- Claim C5: on a 403 response, an error field that parses as a string
becomes the top level error with the error toast opened, and an error
field that is not a string is silently dropped with no state change. -/
theorem submit403_error_toast (s : SessionState) (d : JSValue) (msg : String) :
    (getField d "error" = some (.str msg) →
      handleSubmitOnError (.obj [("status", .num 403), ("data", d)]) s =
        .ok { s with error := msg, openErr := true }) ∧
    (∀ v, getField d "error" = some v → (∀ m, v ≠ .str m) →
      handleSubmitOnError (.obj [("status", .num 403), ("data", d)]) s = .ok s) := by
  have hs : handleSubmitOnError (.obj [("status", .num 403), ("data", d)]) s =
      match getField d "error" with
      | none => .error ()
      | some w =>
        match w with
        | .str m => .ok { s with error := m, openErr := true }
        | _ => .ok s := rfl
  constructor
  · intro h
    rw [hs, h]
  · intro v h hv
    rw [hs, h]
    cases v with
    | str m => exact absurd rfl (hv m)
    | undefined => rfl
    | num n => rfl
    | list l => rfl
    | obj fs => rfl

/-- Claim C5 witness: a concrete string error body and a concrete numeric
error body. -/
theorem submit403_error_toast_witness :
    handleSubmitOnError
        (.obj [("status", .num 403), ("data", .obj [("error", .str "not allowed")])]) s0 =
      .ok { s0 with error := "not allowed", openErr := true } ∧
    handleSubmitOnError
        (.obj [("status", .num 403), ("data", .obj [("error", .num 1)])]) s0 = .ok s0 :=
  ⟨(submit403_error_toast s0 (.obj [("error", .str "not allowed")]) "not allowed").1 rfl,
   (submit403_error_toast s0 (.obj [("error", .num 1)]) "x").2 (.num 1) rfl
     (fun _ hm => nomatch hm)⟩

/-- Claim C6: the result of a submit attempt does not depend on the field
error state left behind by any earlier attempt: the field errors are fully
replaced at the start of every attempt, so error lists never accumulate
across attempts. -/
theorem submit_errors_not_accumulated (product : Product) (category : Option Category)
    (outcome : UpdateOutcome) (s : SessionState) (e : JSValue) :
    submit product category outcome { s with formErrors := e } =
      submit product category outcome s := rfl

/-- Claim C7: when the non-empty-image precondition passes, the PATCH
request carries the product prop's id and variants, the draft's image,
name, price and stock, and the category prop's id, never the draft's own
categoryId or the draft's variants. -/
theorem submit_request_fields (product : Product) (category : Option Category)
    (s : SessionState) (h : s.currentProduct.image ≠ "") :
    (handleSubmitPre product category s).2 = some {
      method := "PATCH",
      url := "/api/products/" ++ product.id,
      id := product.id,
      image := s.currentProduct.image,
      name := s.currentProduct.name,
      price := s.currentProduct.price,
      stock := s.currentProduct.stock,
      categoryId := Option.map Category.id category,
      variants := product.variants } := by
  unfold handleSubmitPre
  simp [h]

/-- Claim C7 witness: the concrete draft and a concrete category prop. -/
theorem submit_request_fields_witness :
    (handleSubmitPre p0 (some { id := "c2" }) s0).2 = some {
      method := "PATCH",
      url := "/api/products/p1",
      id := "p1",
      image := "img.png",
      name := "Widget",
      price := 10,
      stock := 5,
      categoryId := some "c2",
      variants := .list [] } :=
  submit_request_fields p0 (some { id := "c2" }) s0 (by decide)

/-- Claim C8 counterexample: a failed upload whose error response data is
an object lacking an error field does not fail with an unhandled-shape
condition: the field access yields the undefined value and the handler
gracefully stores the image error list holding it, returning normally
rather than throwing. -/
theorem uploadError_no_error_field_graceful :
    uploadImageOnError (.obj [("data", .obj [("message", .str "oops")])]) s0 =
      .ok { s0 with formErrors := setField s0.formErrors "image" (.list [.undefined]) } ∧
    (Except.ok { s0 with formErrors := setField s0.formErrors "image" (.list [.undefined]) } :
        Except Unit SessionState) ≠ .error () :=
  ⟨rfl, fun h => nomatch h⟩

/-- Claim C8 amended: a failed upload stores the error response body's
error field as the sole image field error whenever the response carries a
data value with a readable error field, the undefined value included when
the data object lacks that field; the unguarded accesses throw (an
unhandled-shape condition) only when the response is missing altogether or
its data is undefined. -/
theorem uploadError_shape (r d v : JSValue) (s : SessionState) :
    (getField r "data" = some d → getField d "error" = some v →
      uploadImageOnError r s =
        .ok { s with formErrors := setField s.formErrors "image" (.list [v]) }) ∧
    uploadImageOnError .undefined s = .error () ∧
    (getField r "data" = some .undefined → uploadImageOnError r s = .error ()) := by
  refine ⟨fun h1 h2 => ?_, rfl, fun h1 => ?_⟩
  · unfold uploadImageOnError
    rw [h1]
    show (match getField d "error" with
          | none => (Except.error () : Except Unit SessionState)
          | some w =>
            Except.ok { s with formErrors := setField s.formErrors "image" (.list [w]) }) =
        Except.ok { s with formErrors := setField s.formErrors "image" (.list [v]) }
    rw [h2]
  · unfold uploadImageOnError
    rw [h1]
    exact rfl

/-- Claim C8 witness: a well-shaped error response and a response whose
data is undefined. -/
theorem uploadError_shape_witness :
    uploadImageOnError (.obj [("data", .obj [("error", .str "boom")])]) s0 =
      .ok { s0 with formErrors := setField s0.formErrors "image" (.list [.str "boom"]) } ∧
    uploadImageOnError (.obj [("data", .undefined)]) s0 = .error () :=
  ⟨(uploadError_shape (.obj [("data", .obj [("error", .str "boom")])])
      (.obj [("error", .str "boom")]) (.str "boom") s0).1 rfl rfl,
   (uploadError_shape (.obj [("data", .undefined)]) .undefined .undefined s0).2.2 rfl⟩

/-- Claim C9: a failure response whose status is neither 400 nor 403
leaves the session state exactly as it was when the handler ran, and a
network-level failure with no response throws before any state update: in
both cases no error is recorded, no toast opens, and no user-visible
feedback occurs. -/
theorem submit_other_failures_silent (s : SessionState) (d : JSValue) (n : Int)
    (h400 : n ≠ 400) (h403 : n ≠ 403) :
    handleSubmitOnError (.obj [("status", .num n), ("data", d)]) s = .ok s ∧
    handleSubmitOnError .undefined s = .error () := by
  refine ⟨?_, rfl⟩
  have hs : handleSubmitOnError (.obj [("status", .num n), ("data", d)]) s =
      if statusEq (.num n) 400 then
        match getField (.obj [("status", .num n), ("data", d)]) "data" with
        | none => .error ()
        | some d1 =>
          match getField d1 "error" with
          | none => .error ()
          | some v => .ok { s with formErrors := v }
      else if statusEq (.num n) 403 then
        match getField (.obj [("status", .num n), ("data", d)]) "data" with
        | none => .error ()
        | some d1 =>
          match getField d1 "error" with
          | none => .error ()
          | some v =>
            match v with
            | .str msg => .ok { s with error := msg, openErr := true }
            | _ => .ok s
      else
        .ok s := rfl
  rw [hs]
  simp [statusEq, h400, h403]

/-- Claim C9 witness: a concrete 500 response. -/
theorem submit_other_failures_silent_witness :
    handleSubmitOnError (.obj [("status", .num 500), ("data", .obj [])]) s0 = .ok s0 :=
  (submit_other_failures_silent s0 (.obj []) 500 (by decide) (by decide)).1

/-- Claim C10: the cleared/default error state maps each of the seven form
fields to the one element list holding the empty string, not to the empty
list, and both the initial session state and the clearing step at the
start of submit produce exactly this representation. -/
theorem defaultErrors_blank_lists (product : Product) (category : Option Category)
    (s : SessionState) (h : s.currentProduct.image ≠ "") :
    getField defaultErrors "id" = some (.list [.str ""]) ∧
    getField defaultErrors "image" = some (.list [.str ""]) ∧
    getField defaultErrors "name" = some (.list [.str ""]) ∧
    getField defaultErrors "price" = some (.list [.str ""]) ∧
    getField defaultErrors "stock" = some (.list [.str ""]) ∧
    getField defaultErrors "categoryId" = some (.list [.str ""]) ∧
    getField defaultErrors "variants" = some (.list [.str ""]) ∧
    JSValue.list [.str ""] ≠ .list [] ∧
    (initialState product).formErrors = defaultErrors ∧
    (handleSubmitPre product category s).1.formErrors = defaultErrors := by
  refine ⟨rfl, rfl, rfl, rfl, rfl, rfl, rfl, fun hc => by simp at hc, rfl, ?_⟩
  unfold handleSubmitPre
  simp [h]

/-- Claim C10 witness: the clearing step of the concrete session. -/
theorem defaultErrors_blank_lists_witness :
    (handleSubmitPre p0 none s0).1.formErrors = defaultErrors :=
  (defaultErrors_blank_lists p0 none s0 (by decide)).2.2.2.2.2.2.2.2.2

end EditProduct
